import Mathlib

/-!
Shallow embedding of the `doh-dns` crate (DNS-over-HTTPS client) and proofs
about its response processing, retry engine, static resolver and record-type
dispatch.  Definitions mirror `src/lib.rs`, `src/dns.rs`, `src/client.rs`,
`src/status.rs` and `src/error.rs`.
-/

namespace DohDns

/-- IP address, mirrors `std::net::IpAddr` (V4 / V6). -/
inductive IpAddr where
  | v4 (a b c d : Nat)
  | v6 (a b c d e f g h : Nat)
deriving DecidableEq, Repr

/-- Mirrors `DnsAnswer` from `src/client.rs`: one decoded answer record. -/
structure DnsAnswer where
  name : String
  type : Nat
  TTL : Nat
  data : String
deriving DecidableEq, Repr

/-- Mirrors `DnsResponse` from `src/client.rs`: the decoded JSON body:
`Status` plus an optional answer list (`Answer` may be absent). -/
structure DnsResponse where
  Status : Nat
  Answer : Option (List DnsAnswer)
deriving DecidableEq, Repr

/-- Mirrors the `RCode` enum of `src/status.rs` (25 variants in declaration
order, `NoError` first and `Unknown` last). -/
inductive RCode where
  | NoError
  | FormErr
  | ServFail
  | NXDomain
  | NotImp
  | Refused
  | YXDomain
  | YXRRSet
  | NXRRSet
  | NotAuth
  | NotZone
  | DSOTYPENI
  | Unassigned12
  | Unassigned13
  | Unassigned14
  | Unassigned15
  | BADVERS
  | BADKEY
  | BADTIME
  | BADMODE
  | BADNAME
  | BADALG
  | BADTRUNC
  | BADCOOKIE
  | Unknown
deriving DecidableEq, Repr

/-- Mirrors `num::FromPrimitive::from_u32` for `RCode` as derived by
`num_derive`: discriminants are assigned in declaration order starting at 0,
so values 0..24 map to the variants in order and anything else maps to
`none`. -/
def RCode.fromU32 : Nat → Option RCode
  | 0 => some .NoError
  | 1 => some .FormErr
  | 2 => some .ServFail
  | 3 => some .NXDomain
  | 4 => some .NotImp
  | 5 => some .Refused
  | 6 => some .YXDomain
  | 7 => some .YXRRSet
  | 8 => some .NXRRSet
  | 9 => some .NotAuth
  | 10 => some .NotZone
  | 11 => some .DSOTYPENI
  | 12 => some .Unassigned12
  | 13 => some .Unassigned13
  | 14 => some .Unassigned14
  | 15 => some .Unassigned15
  | 16 => some .BADVERS
  | 17 => some .BADKEY
  | 18 => some .BADTIME
  | 19 => some .BADMODE
  | 20 => some .BADNAME
  | 21 => some .BADALG
  | 22 => some .BADTRUNC
  | 23 => some .BADCOOKIE
  | 24 => some .Unknown
  | _ => none

/-- Mirrors `QueryError` from `src/error.rs`. -/
inductive QueryError where
  | invalidName (msg : String)
  | invalidEndpoint (msg url : String)
  | connection (msg : String)
  | readResponse (msg : String)
  | parseResponse (msg : String)
  | unknown
  | badRequest400
  | payloadTooLarge413
  | uriTooLong414
  | unsupportedMediaType415
  | tooManyRequests429
  | internalServerError500
  | notImplemented501
  | badGateway502
  | resolverTimeout504
deriving DecidableEq, Repr

/-- Mirrors `DnsError` from `src/error.rs`. -/
inductive DnsError where
  | query (e : QueryError)
  | status (c : RCode)
  | invalidRecordType
  | noServers
deriving DecidableEq, Repr

/-- Mirrors the `DnsHttpsServer` enum of `src/lib.rs` (Google / Cloudflare /
fully custom endpoint description). -/
inductive DnsHttpsServer where
  | google (timeoutSecs : Nat)
  | cloudflare (timeoutSecs : Nat)
  | custom (domain : String) (path : String) (addr : List IpAddr) (timeoutSecs : Nat)
deriving DecidableEq, Repr

/-- Mirrors the constant `GOOGLE` address list of `src/lib.rs`. -/
def GOOGLE : List IpAddr :=
  [.v4 8 8 8 8, .v6 0x2001 0x4860 0x4860 0 0 0 0 0x8888,
   .v4 8 8 4 4, .v6 0x2001 0x4860 0x4860 0 0 0 0 0x8844]

/-- Mirrors the constant `CLOUDFLARE` address list of `src/lib.rs`. -/
def CLOUDFLARE : List IpAddr :=
  [.v4 1 1 1 1, .v6 0x2606 0x4700 0x4700 0 0 0 0 0x1111,
   .v4 1 0 0 1, .v6 0x2606 0x4700 0x4700 0 0 0 0 0x1001]

/-- Mirrors `DnsHttpsServer::addr` of `src/lib.rs`. -/
def DnsHttpsServer.addr : DnsHttpsServer → List IpAddr
  | .google _ => GOOGLE
  | .cloudflare _ => CLOUDFLARE
  | .custom _ _ a _ => a

/-- Mirrors `DnsHttpsServer::domain` of `src/lib.rs`. -/
def DnsHttpsServer.domain : DnsHttpsServer → String
  | .google _ => "dns.google"
  | .cloudflare _ => "cloudflare-dns.com"
  | .custom d _ _ _ => d

/-- Mirrors `DnsHttpsServer::path` of `src/lib.rs`. -/
def DnsHttpsServer.path : DnsHttpsServer → String
  | .google _ => "resolve"
  | .cloudflare _ => "dns-query"
  | .custom _ p _ _ => p

/-- The client state built by `Dns::with_servers` in `src/dns.rs`: the stored
server list (the transport client field is the external HTTPS collaborator
and carries no state relevant to the specified behaviour). -/
structure Dns where
  servers : List DnsHttpsServer
deriving DecidableEq, Repr

/-- Mirrors `Dns::with_servers` of `src/dns.rs`: an empty list fails with
`DnsError::NoServers`, otherwise the servers are stored as given
(`servers.to_vec()` preserves order). -/
def Dns.with_servers (servers : List DnsHttpsServer) : Except DnsError Dns :=
  if servers.isEmpty then .error .noServers
  else .ok { servers := servers }

/-- Mirrors `allow_cname` of `src/dns.rs`: when the requested type code is
A (1) or AAAA (28), a CNAME (5) answer is allowed through the filter. -/
def allow_cname (answer : DnsAnswer) (request : Nat) : Bool :=
  if request == 1 || request == 28 then answer.type == 5 else false

/-- Mirrors `char::is_ascii_whitespace` of the Rust standard library:
space, horizontal tab, line feed, form feed, carriage return. -/
def isAsciiWhitespace (c : Char) : Bool :=
  c == ' ' || c == '\t' || c == '\n' || c == '\x0c' || c == '\r'

/-- Worker for `splitAsciiWs`: accumulates the current token (reversed) and
emits it at each whitespace run boundary, skipping empty tokens. -/
def splitAsciiWsGo : List Char → List Char → List (List Char)
  | [], acc => if acc.isEmpty then [] else [acc.reverse]
  | c :: cs, acc =>
      if isAsciiWhitespace c then
        if acc.isEmpty then splitAsciiWsGo cs []
        else acc.reverse :: splitAsciiWsGo cs []
      else splitAsciiWsGo cs (c :: acc)

/-- Mirrors `str::split_ascii_whitespace`: the non-empty maximal runs of
non-whitespace characters, in order. -/
def splitAsciiWs (s : String) : List (List Char) :=
  splitAsciiWsGo s.toList []

/-- Mirrors `str::parse::<u32>`: an optional leading `+`, then at least one
ASCII digit, no other characters, and the value must fit in 32 bits; any
other shape (or overflow) fails. -/
def parseU32 (s : List Char) : Option Nat :=
  let digits := match s with
    | '+' :: rest => rest
    | other => other
  if digits.isEmpty then none
  else if digits.all (fun c => '0' ≤ c && c ≤ '9') then
    let n := digits.foldl (fun acc c => acc * 10 + (c.toNat - 48)) 0
    if n < 2 ^ 32 then some n else none
  else none

/-- The per-answer body of the `filter_map` in `Dns::resolve_mx_and_sort`
(`src/dns.rs` lines 49-67): keep the answer only if its type is MX (15), its
`data` splits into a first token parsing as `u32` and a second token; the
kept answer is a clone with `data` replaced by that second token, paired
with the parsed priority. -/
def mxParse (a : DnsAnswer) : Option (DnsAnswer × Nat) :=
  if a.type == 15 then
    match splitAsciiWs a.data with
    | part1 :: rest =>
        match parseU32 part1 with
        | some priority =>
            match rest with
            | mx :: _ => some ({ a with data := String.mk mx }, priority)
            | [] => none
        | none => none
    | [] => none
  else none

/-- The collected `filter_map` result of `Dns::resolve_mx_and_sort`, before
sorting: the kept (rewritten answer, priority) pairs in encounter order. -/
def mxExtract (answers : List DnsAnswer) : List (DnsAnswer × Nat) :=
  answers.filterMap mxParse

/-- Comparison used by the MX sort: ascending by the parsed priority (the
`|x| x.1` key of `sort_unstable_by_key`, the second component here). -/
def mxLe (x y : DnsAnswer × Nat) : Prop := x.2 ≤ y.2

instance : DecidableRel mxLe := fun x y => inferInstanceAs (Decidable (x.2 ≤ y.2))

instance : IsTotal (DnsAnswer × Nat) mxLe := ⟨fun x y => Nat.le_total x.2 y.2⟩

instance : IsTrans (DnsAnswer × Nat) mxLe := ⟨fun _ _ _ h h2 => Nat.le_trans h h2⟩

/-- Contract of `Vec::sort_unstable_by_key(|x| x.1)` from the Rust standard
library (an external collaborator): the output is a permutation of the input
that is sorted by the key; the relative order of equal keys is
implementation-defined, so any function satisfying this contract is a
faithful model of the call. -/
def KeySortSpec (f : List (DnsAnswer × Nat) → List (DnsAnswer × Nat)) : Prop :=
  ∀ l, (f l).Perm l ∧ (f l).Pairwise mxLe

/-- A stable sort by priority (insertion sort with a non-strict key
comparison keeps equal keys in encounter order); one admissible
implementation of the unstable-sort contract. -/
def stableByKey (l : List (DnsAnswer × Nat)) : List (DnsAnswer × Nat) :=
  List.insertionSort mxLe l

/-- Another admissible implementation of the unstable-sort contract: stably
sorting the reversed input, which leaves equal keys in reversed encounter
order. -/
def revTieSort (l : List (DnsAnswer × Nat)) : List (DnsAnswer × Nat) :=
  List.insertionSort mxLe l.reverse

/-- Mirrors `Dns::resolve_mx_and_sort` of `src/dns.rs` after `client_request`
succeeded, parameterized by the sort function standing for
`sort_unstable_by_key` (the standard library pins only sortedness and
permutation, not tie order): interpret `Status`, extract the MX pairs, sort
by priority, drop the priorities. -/
def resolve_mx_and_sort_with
    (sortFn : List (DnsAnswer × Nat) → List (DnsAnswer × Nat))
    (res : DnsResponse) : Except DnsError (List DnsAnswer) :=
  match RCode.fromU32 res.Status with
  | some .NoError =>
      .ok ((sortFn (mxExtract ((res.Answer).getD []))).map Prod.fst)
  | some code => .error (.status code)
  | none => .error (.status .Unknown)

/-- The response post-processing stage of `Dns::request_and_process` in
`src/dns.rs` (the part after `client_request` succeeded): interpret the
numeric `Status` via `RCode::from_u32`, and on `NoError` keep an answer when
`a.r#type == rtype.0 || rtype.0 == 0 || allow_cname(a, rtype)`; a missing
`Answer` field is treated as the empty list. -/
def processResponse (res : DnsResponse) (rtype : Nat) : Except DnsError (List DnsAnswer) :=
  match RCode.fromU32 res.Status with
  | some .NoError =>
      .ok (((res.Answer).getD []).filter
        (fun a => a.type == rtype || rtype == 0 || allow_cname a rtype))
  | some code => .error (.status code)
  | none => .error (.status .Unknown)

/-- Outcome of reading and JSON-decoding the body of an HTTP 200 response
(the `hyper::body::to_bytes` / `serde_json::from_slice` stages of
`HyperDnsClient::request` in `src/client.rs`). -/
inductive BodyResult where
  | readFail (msg : String)
  | parseFail (msg : String)
  | parsed (res : DnsResponse)
deriving DecidableEq, Repr

/-- Observable outcome of one server attempt inside the retry loop of
`HyperDnsClient::request` (`src/client.rs` lines 157-203): the per-server
URL either fails to parse, or the guarded request times out, fails at the
transport level, or yields an HTTP response with a status code (whose body
is only examined when the status is 200). -/
inductive HttpAttempt where
  | urlParseFail (msg url : String)
  | timeoutElapsed (timeoutMsg : String)
  | connFail (msg : String)
  | response (status : Nat) (body : BodyResult)
deriving DecidableEq, Repr

/-- Classification of one attempt, mirroring the per-iteration `match` of
`HyperDnsClient::request`: `.inl` means the loop returns at once (with a
successfully decoded response or a fatal error), `.inr e` means `e` is
recorded in the `error` variable and the next server is tried. -/
def attemptStep (a : HttpAttempt) : Except QueryError DnsResponse ⊕ QueryError :=
  match a with
  | .urlParseFail msg url => .inl (.error (.invalidEndpoint msg url))
  | .timeoutElapsed msg => .inr (.connection msg)
  | .connFail msg => .inr (.connection msg)
  | .response status body =>
      if status = 200 then
        match body with
        | .readFail msg => .inr (.readResponse msg)
        | .parseFail msg => .inr (.parseResponse msg)
        | .parsed res => .inl (.ok res)
      else if status = 400 then .inl (.error .badRequest400)
      else if status = 413 then .inl (.error .payloadTooLarge413)
      else if status = 414 then .inl (.error .uriTooLong414)
      else if status = 415 then .inl (.error .unsupportedMediaType415)
      else if status = 501 then .inl (.error .notImplemented501)
      else if status = 429 then .inr .tooManyRequests429
      else if status = 500 then .inr .internalServerError500
      else if status = 502 then .inr .badGateway502
      else if status = 504 then .inr .resolverTimeout504
      else .inr .unknown

/-- The retry loop of `HyperDnsClient::request`, threading the `error`
variable: each iteration either returns immediately or overwrites `error`
and continues; after the last server the recorded error is returned. -/
def client_request_go : QueryError → List HttpAttempt → Except QueryError DnsResponse
  | err, [] => .error err
  | _, a :: rest =>
      match attemptStep a with
      | .inl r => r
      | .inr e => client_request_go e rest

/-- Mirrors `HyperDnsClient::request` of `src/client.rs` (equally
`Dns::client_request` of `src/dns.rs`) given the observable outcome of each
server's attempt in catalog order; `error` starts as `QueryError::Unknown`,
so an empty server list returns that. -/
def client_request (attempts : List HttpAttempt) : Except QueryError DnsResponse :=
  client_request_go .unknown attempts

/-- The error an attempt records when the loop continues past it
(`QueryError.unknown` as a dummy for attempts that in fact return). -/
def recordedError (a : HttpAttempt) : Option QueryError :=
  match attemptStep a with
  | .inr e => some e
  | .inl _ => none

/-- The five HTTP statuses classified fatal by the retry loop. -/
def fatalStatus (s : Nat) : Prop :=
  s = 400 ∨ s = 413 ∨ s = 414 ∨ s = 415 ∨ s = 501

instance (s : Nat) : Decidable (fatalStatus s) := by
  unfold fatalStatus; infer_instance

/-- The fatal `QueryError` returned for each fatal HTTP status. -/
def fatalErrorOf (s : Nat) : QueryError :=
  if s = 400 then .badRequest400
  else if s = 413 then .payloadTooLarge413
  else if s = 414 then .uriTooLong414
  else if s = 415 then .unsupportedMediaType415
  else .notImplemented501

/-- The retryable attempts named by the specification: a timeout, a
connection failure, or any HTTP status that is neither 200 nor one of the
five fatal statuses. -/
def retryableAttempt (a : HttpAttempt) : Prop :=
  (∃ m, a = .timeoutElapsed m) ∨ (∃ m, a = .connFail m) ∨
    (∃ s b, a = .response s b ∧ s ≠ 200 ∧ ¬ fatalStatus s)

/-- Mirrors `StaticResolver` of `src/client.rs`: the `HashMap` from each
registered server hostname to its candidate address list, modelled as an
association list with unique keys (`HashMap::get` is first-match lookup). -/
structure StaticResolver where
  table : List (String × List IpAddr)
deriving DecidableEq, Repr

/-- Mirrors `StaticResolver::new` of `src/client.rs`: registers each
server's domain with its full candidate address list, in order. -/
def StaticResolver.new (servers : List DnsHttpsServer) : StaticResolver :=
  ⟨servers.map (fun s => (s.domain, s.addr))⟩

/-- Mirrors `io::ErrorKind::AddrNotAvailable`, the only error
`StaticResolver::call` produces. -/
inductive ResolveErr where
  | addrNotAvailable
deriving DecidableEq, Repr

/-- Mirrors `HashMap::get` on the resolver table. -/
def StaticResolver.lookup (r : StaticResolver) (name : String) : Option (List IpAddr) :=
  (r.table.find? (fun p => p.1 == name)).map Prod.snd

/-- Mirrors `StaticResolver::call` of `src/client.rs`: on a registered
hostname with a non-empty candidate list it returns the whole list (the
iterator the connector consumes), otherwise `AddrNotAvailable`; the `&mut
self` receiver writes nothing, so the resolver state is returned
unchanged. -/
def StaticResolver.call (r : StaticResolver) (name : String) :
    Except ResolveErr (List IpAddr) × StaticResolver :=
  match r.lookup name with
  | some addrs => if addrs.length > 0 then (.ok addrs, r) else (.error .addrNotAvailable, r)
  | none => (.error .addrNotAvailable, r)

/-- The state after `n` further resolutions of `name`, paired with the
result of the resolution performed from that state: `resolveIter r name k`
is the (k+1)-th resolution of `name` on a client whose resolver started as
`r`, with the state threaded through every call. -/
def resolveIter (r : StaticResolver) (name : String) :
    Nat → Except ResolveErr (List IpAddr) × StaticResolver
  | 0 => r.call name
  | k + 1 => (resolveIter ((r.call name).2) name k)

/-- The single address the k-th (1-based) resolution of `name` hands the
connector first: the head of the returned candidate iterator. -/
def kthResolvedFirst (r : StaticResolver) (name : String) (k : Nat) : Option IpAddr :=
  match (resolveIter r name (k - 1)).1 with
  | .ok addrs => addrs.head?
  | .error _ => none

/-- Mirrors `u8::to_ascii_lowercase` on one character: `A`..`Z` shift to
`a`..`z`, everything else is unchanged. -/
def lowerAsciiChar (c : Char) : Char :=
  if 'A' ≤ c && c ≤ 'Z' then Char.ofNat (c.toNat + 32) else c

/-- Mirrors `str::to_ascii_lowercase`. -/
def lowerAscii (s : String) : String :=
  String.mk (s.toList.map lowerAsciiChar)

/-- The `rtypes!` table of `src/dns.rs`: every supported symbolic record
type name with its IANA numeric code, in declaration order. -/
def rtypeTable : List (String × Nat) :=
  [("a", 1), ("aaaa", 28), ("any", 0), ("caa", 257), ("cds", 59),
   ("cert", 37), ("cname", 5), ("dname", 39), ("dnskey", 48), ("ds", 43),
   ("hinfo", 13), ("ipseckey", 45), ("mx", 15), ("naptr", 35), ("ns", 2),
   ("nsec", 47), ("nsec3", 50), ("nsec3param", 51), ("ptr", 12), ("rp", 17),
   ("rrsig", 46), ("soa", 6), ("spf", 99), ("srv", 33), ("sshfp", 44),
   ("tlsa", 52), ("txt", 16), ("wks", 11)]

/-- Mirrors `Dns::resolve_str_type` of `src/dns.rs` applied to a decoded
response: lowercase the given type string, match it against the literal
table names (each arm dispatching to the typed `resolve_*`, whose
post-processing is `processResponse` at that arm's numeric code), and fail
with `InvalidRecordType` on no match. -/
def resolve_str_type (res : DnsResponse) (rtype : String) :
    Except DnsError (List DnsAnswer) :=
  match (rtypeTable.find? (fun p => p.1 == lowerAscii rtype)).map Prod.snd with
  | some code => processResponse res code
  | none => .error .invalidRecordType

/-- Written from the spec's words for claim C2: an MX answer is kept when
its data parses as an integer priority followed by an exchange-name token;
the kept record keeps its name, type and TTL and has its data replaced by
the exchange name, paired with the parsed priority. -/
def mxClaimParse (a : DnsAnswer) : Option (DnsAnswer × Nat) :=
  match splitAsciiWs a.data with
  | p :: x :: _ =>
      match parseU32 p with
      | some priority =>
          if a.type = 15 then
            some ({ name := a.name, type := a.type, TTL := a.TTL,
                    data := String.mk x }, priority)
          else none
      | none => none
  | _ => none

/-- Written from the spec's words for claim C2: the kept pairs sorted
ascending by priority with ties in encounter order (insertion sort with a
non-strict key comparison is the stable sort by that key), priorities then
dropped. -/
def mxStableResult (answers : List DnsAnswer) : List DnsAnswer :=
  (stableByKey (answers.filterMap mxClaimParse)).map Prod.fst

/-- Claim C2 as stated: whichever contract-satisfying sort stands for
`sort_unstable_by_key`, on a `NoError` response the MX query returns
exactly the stable-sorted result (ties in encounter order). -/
def mxStableClaim : Prop :=
  ∀ sortFn, KeySortSpec sortFn →
    ∀ res : DnsResponse, res.Status = 0 →
      resolve_mx_and_sort_with sortFn res = .ok (mxStableResult ((res.Answer).getD []))

/-- Claim C1 as stated: for a hostname registered with a non-empty candidate
list of length N, the k-th resolution hands the connector candidate
`(k-1) mod N` first, for every k ≥ 1. -/
def roundRobinClaim : Prop :=
  ∀ (r : StaticResolver) (name : String) (addrs : List IpAddr),
    r.lookup name = some addrs → addrs ≠ [] →
      ∀ k, 1 ≤ k → kthResolvedFirst r name k = addrs.get? ((k - 1) % addrs.length)

/-- Claim C8 as stated: resolving a hostname registered with an empty
candidate list does not fail with `AddrNotAvailable` (the spec says it
falls back to real DNS instead). -/
def emptyFallbackClaim : Prop :=
  ∀ (r : StaticResolver) (name : String),
    r.lookup name = some [] → (r.call name).1 ≠ .error .addrNotAvailable

/-- Written from the spec's words for claim C4: retain an answer when its
type code equals the requested one, or the requested type is A (1) or
AAAA (28) and the answer is a CNAME (5). -/
def claimKeep (rtype : Nat) (a : DnsAnswer) : Bool :=
  a.type == rtype || ((rtype == 1 || rtype == 28) && a.type == 5)

/-- Written from the spec's words for claim C5: map the numeric DNS status
to a symbolic `RCode`, unmapped values producing `RCode.Unknown`. -/
def interpretStatus (n : Nat) : RCode :=
  (RCode.fromU32 n).getD .Unknown

/-- Sample answer list mixing a CNAME, two A records and a TXT record. -/
def sampleAnswers : List DnsAnswer :=
  [⟨"www.sendgrid.com.", 5, 988, "sendgrid.com."⟩,
   ⟨"sendgrid.com.", 1, 89, "169.45.113.198"⟩,
   ⟨"sendgrid.com.", 1, 89, "167.89.118.63"⟩,
   ⟨"google.com.", 16, 299, "docusign"⟩]

/-- Sample `NoError` response carrying `sampleAnswers`. -/
def sampleRes : DnsResponse := ⟨0, some sampleAnswers⟩

/-- Sample MX answer list (priorities out of order, plus one CNAME that the
MX query must drop). -/
def mxAnswers : List DnsAnswer :=
  [⟨"gmail.com.", 15, 3599, "30 alt3.x."⟩,
   ⟨"gmail.com.", 15, 3599, "5 x."⟩,
   ⟨"gmail.com.", 15, 3599, "40 alt4.x."⟩,
   ⟨"gmail.com.", 15, 3599, "10 alt1.x."⟩,
   ⟨"gmail.com.", 15, 3599, "20 alt2.x."⟩,
   ⟨"gmail.com.", 5, 3599, "alias.x."⟩]

/-- Sample `NoError` response carrying `mxAnswers`. -/
def mxRes : DnsResponse := ⟨0, some mxAnswers⟩

/-- The MX result expected for `mxRes`: sorted by priority, priorities
stripped, CNAME dropped. -/
def mxSorted : List DnsAnswer :=
  [⟨"gmail.com.", 15, 3599, "x."⟩,
   ⟨"gmail.com.", 15, 3599, "alt1.x."⟩,
   ⟨"gmail.com.", 15, 3599, "alt2.x."⟩,
   ⟨"gmail.com.", 15, 3599, "alt3.x."⟩,
   ⟨"gmail.com.", 15, 3599, "alt4.x."⟩]

/-- Sample `NoError` response with two MX answers of equal priority. -/
def tieRes : DnsResponse :=
  ⟨0, some [⟨"g.", 15, 1, "10 a."⟩, ⟨"g.", 15, 1, "10 b."⟩]⟩

/-- Sample resolver registering one hostname with two candidates. -/
def twoAddrResolver : StaticResolver :=
  ⟨[("dns.example", [IpAddr.v4 10 0 0 1, IpAddr.v4 10 0 0 2])]⟩

/-- Sample resolver registering one hostname with an empty candidate
list. -/
def emptyAddrResolver : StaticResolver := ⟨[("dns.example", [])]⟩

/-- Decidable equality for `Except`, needed to evaluate result values in
concrete counterexamples. -/
instance {e a : Type} [DecidableEq e] [DecidableEq a] : DecidableEq (Except e a) :=
  fun x y =>
    match x, y with
    | .ok v, .ok w =>
        if h : v = w then isTrue (by rw [h]) else isFalse (by intro hh; cases hh; exact h rfl)
    | .error v, .error w =>
        if h : v = w then isTrue (by rw [h]) else isFalse (by intro hh; cases hh; exact h rfl)
    | .ok _, .error _ => isFalse (by intro hh; cases hh)
    | .error _, .ok _ => isFalse (by intro hh; cases hh)

/-! ### Theorems -/

theorem fromU32_zero : RCode.fromU32 0 = some .NoError := rfl

theorem processResponse_ok_of_status_zero (res : DnsResponse) (rtype : Nat)
    (h : res.Status = 0) :
    processResponse res rtype =
      .ok (((res.Answer).getD []).filter
        (fun a => a.type == rtype || rtype == 0 || allow_cname a rtype)) := by
  unfold processResponse
  rw [h, fromU32_zero]

/-- C6: constructing a client with an empty endpoint list fails with
`NoServers` (the check is a pure guard executed before any request is
built); a non-empty list succeeds and stores the endpoints in the given
order. -/
theorem with_servers_empty_guard (servers : List DnsHttpsServer) :
    (Dns.with_servers servers = .error DnsError.noServers ↔ servers = []) ∧
    (∀ d, Dns.with_servers servers = .ok d → d.servers = servers) := by
  cases servers with
  | nil =>
      refine ⟨⟨fun _ => rfl, fun _ => rfl⟩, ?_⟩
      intro d h
      simp [Dns.with_servers] at h
  | cons s t =>
      refine ⟨⟨fun h => ?_, fun h => by simp at h⟩, fun d h => ?_⟩
      · simp [Dns.with_servers] at h
      · simp only [Dns.with_servers, List.isEmpty_cons, if_neg] at h
        cases h
        rfl

theorem with_servers_empty_guard_witness :
    Dns.with_servers [] = .error DnsError.noServers ∧
      (Dns.with_servers [DnsHttpsServer.google 3] =
          .ok { servers := [DnsHttpsServer.google 3] } ∧
        (Dns.mk [DnsHttpsServer.google 3]).servers = [DnsHttpsServer.google 3]) :=
  ⟨(with_servers_empty_guard []).1.mpr rfl,
   rfl, (with_servers_empty_guard [DnsHttpsServer.google 3]).2 _ rfl⟩

/-- C4: on a `NoError` response, an `ANY` (0) request returns every answer
unfiltered in original order, and any other request retains exactly the
answers whose type equals the requested code, plus CNAME (5) answers when
the requested type is A (1) or AAAA (28); the filter preserves relative
order. -/
theorem filter_any_and_cname (res : DnsResponse) (rtype : Nat)
    (h : res.Status = 0) :
    processResponse res rtype =
      .ok (if rtype = 0 then (res.Answer).getD []
           else ((res.Answer).getD []).filter (claimKeep rtype)) := by
  rw [processResponse_ok_of_status_zero res rtype h]
  by_cases h0 : rtype = 0
  · subst h0
    rw [if_pos rfl]
    congr 1
    apply List.filter_eq_self.mpr
    intro a _
    simp
  · rw [if_neg h0]
    congr 1
    apply List.filter_congr
    intro a _
    have : (rtype == 0) = false := by simp [h0]
    simp only [claimKeep, allow_cname, this, Bool.or_false]
    cases hreq : (rtype == 1 || rtype == 28) <;> simp

theorem filter_any_and_cname_witness :
    (processResponse sampleRes 0 =
        .ok (if (0 : Nat) = 0 then (sampleRes.Answer).getD []
             else ((sampleRes.Answer).getD []).filter (claimKeep 0))) ∧
      (processResponse sampleRes 1 =
        .ok (if (1 : Nat) = 0 then (sampleRes.Answer).getD []
             else ((sampleRes.Answer).getD []).filter (claimKeep 1))) :=
  ⟨filter_any_and_cname sampleRes 0 rfl, filter_any_and_cname sampleRes 1 rfl⟩

/-- C5: the numeric status is interpreted through `RCode::from_u32` with
unmapped values treated as `RCode::Unknown`; any status other than
`NoError` yields a terminal `DnsError::Status` error whose code is that
interpretation, independent of the answer list (no filtering happens), and
only `NoError` proceeds to filtering. -/
theorem status_interpretation (res : DnsResponse) (rtype : Nat) :
    (interpretStatus res.Status ≠ .NoError →
      processResponse res rtype = .error (.status (interpretStatus res.Status))) ∧
    (interpretStatus res.Status = .NoError →
      ∃ l, processResponse res rtype = .ok l) ∧
    (∀ ans1 ans2 : Option (List DnsAnswer), interpretStatus res.Status ≠ .NoError →
      processResponse ⟨res.Status, ans1⟩ rtype = processResponse ⟨res.Status, ans2⟩ rtype) := by
  refine ⟨?_, ?_, ?_⟩
  · intro hne
    unfold processResponse
    cases hc : RCode.fromU32 res.Status with
    | none => simp [interpretStatus, hc]
    | some c =>
        cases c <;> simp_all [interpretStatus]
  · intro he
    unfold processResponse
    cases hc : RCode.fromU32 res.Status with
    | none => simp [interpretStatus, hc] at he
    | some c =>
        cases c <;> simp_all [interpretStatus]
  · intro ans1 ans2 hne
    unfold processResponse
    cases hc : RCode.fromU32 res.Status with
    | none => simp
    | some c => cases c <;> simp_all [interpretStatus]

theorem status_interpretation_witness :
    (processResponse ⟨3, some sampleAnswers⟩ 1 =
        .error (.status (interpretStatus 3))) ∧
      (∃ l, processResponse sampleRes 1 = .ok l) ∧
      (processResponse ⟨77, some sampleAnswers⟩ 1 = processResponse ⟨77, none⟩ 1) :=
  ⟨(status_interpretation ⟨3, some sampleAnswers⟩ 1).1 (by decide),
   (status_interpretation sampleRes 1).2.1 (by decide),
   (status_interpretation ⟨77, some sampleAnswers⟩ 1).2.2 (some sampleAnswers) none
     (by decide)⟩

/-- C10: whenever the shared typed-resolve post-processing returns a list,
that list is a sublist (subsequence) of the decoded answers: retained
records are the decoded records themselves, every field unchanged. -/
theorem resolve_result_sublist (res : DnsResponse) (rtype : Nat)
    (l : List DnsAnswer) (h : processResponse res rtype = .ok l) :
    l.Sublist ((res.Answer).getD []) := by
  unfold processResponse at h
  cases hc : RCode.fromU32 res.Status with
  | none => rw [hc] at h; cases h
  | some c =>
      cases c <;> rw [hc] at h <;> cases h
      exact List.filter_sublist _

theorem resolve_result_sublist_witness :
    List.Sublist
      [(⟨"www.sendgrid.com.", 5, 988, "sendgrid.com."⟩ : DnsAnswer),
       ⟨"sendgrid.com.", 1, 89, "169.45.113.198"⟩,
       ⟨"sendgrid.com.", 1, 89, "167.89.118.63"⟩]
      ((sampleRes.Answer).getD []) :=
  resolve_result_sublist sampleRes 1 _ rfl

theorem find_key_nodup {β : Type} (l : List (String × β))
    (hnd : (l.map Prod.fst).Nodup) (p : String × β) (hp : p ∈ l) :
    l.find? (fun q => q.1 == p.1) = some p := by
  induction l with
  | nil => cases hp
  | cons a t ih =>
      rcases List.mem_cons.mp hp with rfl | hmem
      · simp [List.find?]
      · have hne : a.1 ≠ p.1 := by
          intro he
          have : p.1 ∈ t.map Prod.fst := List.mem_map_of_mem Prod.fst hmem
          rw [← he] at this
          exact (List.nodup_cons.mp hnd).1 this
        have hfa : (a.1 == p.1) = false := beq_eq_false_iff_ne.mpr hne
        rw [List.find?]
        simp only [hfa]
        exact ih (List.nodup_cons.mp hnd).2 hmem

theorem rtypeTable_keys_nodup : (rtypeTable.map Prod.fst).Nodup := by decide

/-- C7: `resolve_str_type` lowercases its type string; when the result is
the name of a table entry (equivalently, when the input case-insensitively
equals that supported symbolic name), the call behaves exactly as the
direct typed call for that entry's numeric code, and when it matches no
entry the call fails with `InvalidRecordType`. -/
theorem str_type_dispatch (res : DnsResponse) (s : String) :
    (∀ entry ∈ rtypeTable, lowerAscii s = entry.1 →
        resolve_str_type res s = processResponse res entry.2) ∧
    ((∀ entry ∈ rtypeTable, lowerAscii s ≠ entry.1) →
        resolve_str_type res s = .error .invalidRecordType) := by
  constructor
  · intro entry hmem heq
    unfold resolve_str_type
    rw [heq]
    rw [find_key_nodup rtypeTable rtypeTable_keys_nodup entry hmem]
    rfl
  · intro hno
    unfold resolve_str_type
    have hfind : rtypeTable.find? (fun p => p.1 == lowerAscii s) = none := by
      apply List.find?_eq_none.mpr
      intro x hx
      simp only [beq_eq_false_iff_ne, ne_eq, Bool.not_eq_true]
      exact fun he => hno x hx he.symm
    rw [hfind]
    rfl

theorem str_type_dispatch_witness :
    (resolve_str_type sampleRes "Mx" = processResponse sampleRes 15 ∧
        resolve_str_type sampleRes "AAAA" = processResponse sampleRes 28) ∧
      resolve_str_type sampleRes "bogus" = .error .invalidRecordType :=
  ⟨⟨(str_type_dispatch sampleRes "Mx").1 ("mx", 15) (by decide) (by decide),
    (str_type_dispatch sampleRes "AAAA").1 ("aaaa", 28) (by decide) (by decide)⟩,
   (str_type_dispatch sampleRes "bogus").2 (by decide)⟩

theorem call_state_unchanged (r : StaticResolver) (name : String) :
    (r.call name).2 = r := by
  unfold StaticResolver.call
  cases r.lookup name with
  | none => rfl
  | some addrs =>
      dsimp only
      split <;> rfl

/-- C1 counterexample: with candidates `[A, B]` for a registered hostname,
the claim demands that the second resolution return candidate `(2-1) mod 2
= B`, but `StaticResolver::call` keeps no cursor and always yields the full
candidate list starting at `A`. -/
theorem round_robin_claim_false : ¬ roundRobinClaim := by
  intro h
  have h2 := h twoAddrResolver "dns.example"
      [IpAddr.v4 10 0 0 1, IpAddr.v4 10 0 0 2] (by decide) (by decide) 2 (by decide)
  revert h2
  decide

/-- C1 amended: `StaticResolver::call` is stateless — for a hostname
registered with a non-empty candidate list, every resolution (the k-th for
any k) returns the entire candidate list in its fixed registration order
and leaves the resolver unchanged; there is no round-robin cursor. -/
theorem static_resolver_stateless (r : StaticResolver) (name : String)
    (addrs : List IpAddr) (k : Nat)
    (hl : r.lookup name = some addrs) (hne : addrs ≠ []) :
    (resolveIter r name k).1 = .ok addrs ∧ (resolveIter r name k).2 = r := by
  induction k with
  | zero =>
      unfold resolveIter StaticResolver.call
      rw [hl]
      have : addrs.length > 0 := List.length_pos.mpr hne
      simp [this]
  | succ n ih =>
      unfold resolveIter
      rw [call_state_unchanged]
      exact ih

theorem static_resolver_stateless_witness :
    (resolveIter twoAddrResolver "dns.example" 4).1 =
        .ok [IpAddr.v4 10 0 0 1, IpAddr.v4 10 0 0 2] ∧
      (resolveIter twoAddrResolver "dns.example" 4).2 = twoAddrResolver :=
  static_resolver_stateless twoAddrResolver "dns.example"
    [IpAddr.v4 10 0 0 1, IpAddr.v4 10 0 0 2] 4 (by decide) (by decide)

/-- C8 counterexample: for a hostname registered with an empty candidate
list, `StaticResolver::call` falls through the `addrs.len() > 0` guard and
fails with `AddrNotAvailable`; it does not fall back to real DNS. -/
theorem empty_fallback_claim_false : ¬ emptyFallbackClaim := by
  intro h
  exact h emptyAddrResolver "dns.example" (by decide) rfl

/-- C8 amended: a hostname registered with an empty candidate list resolves
to the `AddrNotAvailable` error, exactly like an unregistered hostname; no
fallback to real DNS exists in the resolver. -/
theorem empty_candidates_not_available (r : StaticResolver) (name : String) :
    (r.lookup name = some [] → (r.call name).1 = .error .addrNotAvailable) ∧
    (r.lookup name = none → (r.call name).1 = .error .addrNotAvailable) := by
  constructor
  · intro hl
    unfold StaticResolver.call
    rw [hl]
    rfl
  · intro hl
    unfold StaticResolver.call
    rw [hl]

theorem empty_candidates_not_available_witness :
    ((emptyAddrResolver.call "dns.example").1 = .error .addrNotAvailable) ∧
      ((emptyAddrResolver.call "other.example").1 = .error .addrNotAvailable) :=
  ⟨(empty_candidates_not_available emptyAddrResolver "dns.example").1 (by decide),
   (empty_candidates_not_available emptyAddrResolver "other.example").2 (by decide)⟩

theorem keySortSpec_stableByKey : KeySortSpec stableByKey :=
  fun l => ⟨List.perm_insertionSort mxLe l, List.sorted_insertionSort mxLe l⟩

theorem keySortSpec_revTieSort : KeySortSpec revTieSort :=
  fun l =>
    ⟨(List.perm_insertionSort mxLe l.reverse).trans (List.reverse_perm l),
     List.sorted_insertionSort mxLe l.reverse⟩

theorem mxParse_eq_claim (a : DnsAnswer) : mxParse a = mxClaimParse a := by
  by_cases ht : a.type = 15 <;>
    cases hs : splitAsciiWs a.data with
    | nil => simp [mxParse, mxClaimParse, ht, hs]
    | cons p rest =>
        cases rest with
        | nil => cases hp : parseU32 p <;> simp [mxParse, mxClaimParse, ht, hs, hp]
        | cons x t => cases hp : parseU32 p <;> simp [mxParse, mxClaimParse, ht, hs, hp]

theorem mxParse_type_eq (a : DnsAnswer) (rec : DnsAnswer) (pr : Nat)
    (h : mxParse a = some (rec, pr)) : rec.type = 15 := by
  rw [mxParse_eq_claim] at h
  by_cases ht : a.type = 15
  · cases hs : splitAsciiWs a.data with
    | nil => simp [mxClaimParse, hs] at h
    | cons p rest =>
        cases rest with
        | nil => simp [mxClaimParse, hs] at h
        | cons x t =>
            cases hp : parseU32 p with
            | none => simp [mxClaimParse, hs, hp] at h
            | some priority =>
                simp [mxClaimParse, hs, hp, ht] at h
                rw [← h.1]
  · cases hs : splitAsciiWs a.data with
    | nil => simp [mxClaimParse, hs] at h
    | cons p rest =>
        cases rest with
        | nil => simp [mxClaimParse, hs] at h
        | cons x t =>
            cases hp : parseU32 p with
            | none => simp [mxClaimParse, hs, hp] at h
            | some priority => simp [mxClaimParse, hs, hp, ht] at h

/-- C2 counterexample: the claim demands that equal priorities keep
encounter order for the code's sort, but `sort_unstable_by_key` guarantees
only a key-sorted permutation; `revTieSort` satisfies that contract and,
on a response with two priority-10 MX records, yields them in reversed
encounter order. -/
theorem mx_stable_claim_false : ¬ mxStableClaim := by
  intro h
  have h2 := h revTieSort keySortSpec_revTieSort tieRes rfl
  revert h2
  decide

/-- C2 amended: for any sort satisfying the `sort_unstable_by_key` contract,
on a `NoError` response the MX query returns exactly the type-15 answers
whose data parses as an integer priority followed by an exchange-name token
(unparseable ones silently dropped), each with data replaced by the
exchange name and name/type/TTL unchanged, as some permutation of the kept
records that is sorted ascending by parsed priority; the order of
equal-priority records is unspecified. -/
theorem mx_extract_and_sort
    (sortFn : List (DnsAnswer × Nat) → List (DnsAnswer × Nat))
    (hs : KeySortSpec sortFn) (res : DnsResponse) (h0 : res.Status = 0) :
    ∃ pairs : List (DnsAnswer × Nat),
      resolve_mx_and_sort_with sortFn res = .ok (pairs.map Prod.fst) ∧
        pairs.Perm (((res.Answer).getD []).filterMap mxClaimParse) ∧
        pairs.Pairwise mxLe := by
  refine ⟨sortFn (mxExtract ((res.Answer).getD [])), ?_, ?_, ?_⟩
  · unfold resolve_mx_and_sort_with
    rw [h0, fromU32_zero]
  · have heq : mxExtract ((res.Answer).getD []) =
        ((res.Answer).getD []).filterMap mxClaimParse := by
      unfold mxExtract
      rw [show mxParse = mxClaimParse from funext mxParse_eq_claim]
    rw [← heq]
    exact (hs (mxExtract ((res.Answer).getD []))).1
  · exact (hs (mxExtract ((res.Answer).getD []))).2

theorem mx_extract_and_sort_witness :
    ∃ pairs : List (DnsAnswer × Nat),
      resolve_mx_and_sort_with stableByKey mxRes = .ok (pairs.map Prod.fst) ∧
        pairs.Perm (((mxRes.Answer).getD []).filterMap mxClaimParse) ∧
        pairs.Pairwise mxLe :=
  mx_extract_and_sort stableByKey keySortSpec_stableByKey mxRes rfl

/-- C9: for any sort satisfying the `sort_unstable_by_key` contract, every
record the MX query returns has type code 15: the `filter_map` keeps only
type-15 answers (a CNAME accompanying the MX records is dropped entirely)
and the rewrite changes only `data`. -/
theorem mx_only_type_15
    (sortFn : List (DnsAnswer × Nat) → List (DnsAnswer × Nat))
    (hs : KeySortSpec sortFn) (res : DnsResponse) (l : List DnsAnswer)
    (h : resolve_mx_and_sort_with sortFn res = .ok l)
    (a : DnsAnswer) (ha : a ∈ l) : a.type = 15 := by
  unfold resolve_mx_and_sort_with at h
  cases hc : RCode.fromU32 res.Status with
  | none => rw [hc] at h; cases h
  | some c =>
      cases c <;> rw [hc] at h <;> cases h
      obtain ⟨pair, hpair, hfst⟩ := List.mem_map.mp ha
      have hmem : pair ∈ mxExtract ((res.Answer).getD []) :=
        (hs (mxExtract ((res.Answer).getD []))).1.mem_iff.mp hpair
      obtain ⟨orig, _, hparse⟩ := List.mem_filterMap.mp hmem
      have := mxParse_type_eq orig pair.1 pair.2 (by rw [hparse])
      rw [hfst] at this
      exact this

theorem mx_only_type_15_witness :
    (⟨"gmail.com.", 15, 3599, "x."⟩ : DnsAnswer).type = 15 :=
  mx_only_type_15 stableByKey keySortSpec_stableByKey mxRes mxSorted rfl
    ⟨"gmail.com.", 15, 3599, "x."⟩ (by decide)

theorem attemptStep_retryable {a : HttpAttempt} (h : retryableAttempt a) :
    ∃ e, attemptStep a = .inr e := by
  rcases h with ⟨m, rfl⟩ | ⟨m, rfl⟩ | ⟨s, b, rfl, hne, hnf⟩
  · exact ⟨_, rfl⟩
  · exact ⟨_, rfl⟩
  · have h400 : s ≠ 400 := fun hh => hnf (Or.inl hh)
    have h413 : s ≠ 413 := fun hh => hnf (Or.inr (Or.inl hh))
    have h414 : s ≠ 414 := fun hh => hnf (Or.inr (Or.inr (Or.inl hh)))
    have h415 : s ≠ 415 := fun hh => hnf (Or.inr (Or.inr (Or.inr (Or.inl hh))))
    have h501 : s ≠ 501 := fun hh => hnf (Or.inr (Or.inr (Or.inr (Or.inr hh))))
    show ∃ e,
      (if s = 200 then
          match b with
          | .readFail msg => Sum.inr (QueryError.readResponse msg)
          | .parseFail msg => Sum.inr (QueryError.parseResponse msg)
          | .parsed res => Sum.inl (Except.ok res)
        else if s = 400 then Sum.inl (Except.error QueryError.badRequest400)
        else if s = 413 then Sum.inl (Except.error QueryError.payloadTooLarge413)
        else if s = 414 then Sum.inl (Except.error QueryError.uriTooLong414)
        else if s = 415 then Sum.inl (Except.error QueryError.unsupportedMediaType415)
        else if s = 501 then Sum.inl (Except.error QueryError.notImplemented501)
        else if s = 429 then Sum.inr QueryError.tooManyRequests429
        else if s = 500 then Sum.inr QueryError.internalServerError500
        else if s = 502 then Sum.inr QueryError.badGateway502
        else if s = 504 then Sum.inr QueryError.resolverTimeout504
        else Sum.inr QueryError.unknown) = Sum.inr e
    rw [if_neg hne, if_neg h400, if_neg h413, if_neg h414, if_neg h415, if_neg h501]
    split_ifs <;> exact ⟨_, rfl⟩

theorem go_cons_inr {err e : QueryError} {a : HttpAttempt} {l : List HttpAttempt}
    (he : attemptStep a = .inr e) :
    client_request_go err (a :: l) = client_request_go e l := by
  rw [client_request_go, he]

theorem go_head_independent (e1 e2 : QueryError) (a : HttpAttempt)
    (l : List HttpAttempt) :
    client_request_go e1 (a :: l) = client_request_go e2 (a :: l) := rfl

theorem go_skips_retryable (pre : List HttpAttempt)
    (hpre : ∀ x ∈ pre, retryableAttempt x) (err : QueryError) (a : HttpAttempt)
    (post : List HttpAttempt) :
    client_request_go err (pre ++ a :: post) = client_request_go err (a :: post) := by
  induction pre generalizing err with
  | nil => rfl
  | cons x xs ih =>
      obtain ⟨e, he⟩ := attemptStep_retryable (hpre x (List.mem_cons_self x xs))
      show client_request_go err (x :: (xs ++ a :: post)) = _
      rw [go_cons_inr he]
      rw [ih (fun y hy => hpre y (List.mem_cons_of_mem x hy)) e]
      exact go_head_independent e err a post

theorem go_all_retryable (l : List HttpAttempt) (a : HttpAttempt)
    (hall : ∀ x ∈ l, retryableAttempt x) (hlast : l.getLast? = some a) :
    ∃ e, recordedError a = some e ∧ ∀ err, client_request_go err l = .error e := by
  induction l generalizing a with
  | nil => cases hlast
  | cons x t ih =>
      obtain ⟨e, he⟩ := attemptStep_retryable (hall x (List.mem_cons_self x t))
      cases t with
      | nil =>
          rw [List.getLast?_singleton] at hlast
          cases hlast
          refine ⟨e, by rw [recordedError, he], fun err => ?_⟩
          rw [go_cons_inr he]
          rfl
      | cons y t2 =>
          rw [List.getLast?_cons_cons] at hlast
          obtain ⟨e2, hrec, hcr⟩ :=
            ih a (fun z hz => hall z (List.mem_cons_of_mem x hz)) hlast
          refine ⟨e2, hrec, fun err => ?_⟩
          rw [go_cons_inr he]
          exact hcr e

/-- C3: a fatal HTTP status (400, 413, 414, 415, 501) reached after any run
of retryable attempts makes the whole call return that status's error at
once, whatever comes after; a successful decode reached after any run of
retryable attempts (timeouts, connection failures, or non-200 statuses
outside the fatal five, among them 429, 500, 502, 504) is returned even
though earlier endpoints failed; and when every attempt is retryable the
error recorded for the last attempt is returned. -/
theorem fatal_vs_retryable :
    (∀ (pre post : List HttpAttempt) (s : Nat) (b : BodyResult),
        (∀ x ∈ pre, retryableAttempt x) → fatalStatus s →
        client_request (pre ++ .response s b :: post) = .error (fatalErrorOf s)) ∧
    (∀ (pre post : List HttpAttempt) (res : DnsResponse),
        (∀ x ∈ pre, retryableAttempt x) →
        client_request (pre ++ .response 200 (.parsed res) :: post) = .ok res) ∧
    (∀ (attempts : List HttpAttempt) (a : HttpAttempt),
        (∀ x ∈ attempts, retryableAttempt x) → attempts.getLast? = some a →
        ∃ e, recordedError a = some e ∧ client_request attempts = .error e) := by
  refine ⟨?_, ?_, ?_⟩
  · intro pre post s b hpre hf
    unfold client_request
    rw [go_skips_retryable pre hpre .unknown _ post]
    rcases hf with rfl | rfl | rfl | rfl | rfl <;> rfl
  · intro pre post res hpre
    unfold client_request
    rw [go_skips_retryable pre hpre .unknown _ post]
    rfl
  · intro attempts a hall hlast
    obtain ⟨e, hrec, hgo⟩ := go_all_retryable attempts a hall hlast
    exact ⟨e, hrec, hgo .unknown⟩

theorem fatal_vs_retryable_witness :
    (client_request
        [.timeoutElapsed "connection timeout after 3s",
         .response 400 (.readFail ""),
         .response 200 (.parsed ⟨0, some sampleAnswers⟩)] =
      .error (fatalErrorOf 400)) ∧
    (client_request
        [.connFail "tls handshake",
         .response 500 (.readFail ""),
         .response 200 (.parsed ⟨0, some sampleAnswers⟩)] =
      .ok ⟨0, some sampleAnswers⟩) ∧
    (∃ e, recordedError (.response 503 (.readFail "")) = some e ∧
        client_request [.response 429 (.readFail ""), .response 503 (.readFail "")] =
          .error e) :=
  ⟨fatal_vs_retryable.1 [.timeoutElapsed "connection timeout after 3s"]
      [.response 200 (.parsed ⟨0, some sampleAnswers⟩)] 400 (.readFail "")
      (fun x hx => by
        rcases List.mem_singleton.mp hx with rfl
        exact Or.inl ⟨_, rfl⟩)
      (Or.inl rfl),
   fatal_vs_retryable.2.1
      [.connFail "tls handshake", .response 500 (.readFail "")]
      [] ⟨0, some sampleAnswers⟩
      (fun x hx => by
        rcases List.mem_cons.mp hx with rfl | hx2
        · exact Or.inr (Or.inl ⟨_, rfl⟩)
        · rcases List.mem_singleton.mp hx2 with rfl
          exact Or.inr (Or.inr ⟨500, _, rfl, by decide, by decide⟩)),
   fatal_vs_retryable.2.2
      [.response 429 (.readFail ""), .response 503 (.readFail "")]
      (.response 503 (.readFail ""))
      (fun x hx => by
        rcases List.mem_cons.mp hx with rfl | hx2
        · exact Or.inr (Or.inr ⟨429, _, rfl, by decide, by decide⟩)
        · rcases List.mem_singleton.mp hx2 with rfl
          exact Or.inr (Or.inr ⟨503, _, rfl, by decide, by decide⟩))
      rfl⟩

end DohDns
